import Mathlib

/-!
Verification of the AZUL controller-bridge core.

Shallow embedding of the device-bridging / signal-fusion pipeline of
`AZUL.py` (classes `PID`, `VirtualController`, `PS4PS5ToDS4Bridge`,
`LeftStickMicroRotator`, `RightStickPIDInjector`), together with theorems
settling the specification's claims about it.

Python floats are modelled by `ℚ`; bytes by `ℕ` (with a `< 256` bound
supplied where a claim needs it); Python's `int(...)` truncation toward
zero by `truncInt`.  Stateful methods are modelled as explicit
state-passing functions.  Backend (`vgamepad`) calls are external side
effects; where a claim depends on their success or failure, the outcome
is passed in as a boolean.
-/

namespace AZUL

/-! ## Basic numeric helpers -/

/-- `max(lo, min(hi, x))` on rationals, the clamping idiom used throughout
`AZUL.py`. -/
def clampQ (lo hi x : ℚ) : ℚ := max lo (min hi x)

/-- `max(lo, min(hi, x))` on integers (used after the stick values have
already been converted to ints, e.g. `int(max(-32768, min(32767, lx_i + inj_lx_i)))`). -/
def clampZ (lo hi x : ℤ) : ℤ := max lo (min hi x)

/-- Python `int(q)` on a float: truncation toward zero. -/
def truncInt (q : ℚ) : ℤ := if q < 0 then ⌈q⌉ else ⌊q⌋

/-! ## Report decoding (`PS4PS5ToDS4Bridge`) -/

/-- `PS4PS5ToDS4Bridge._to_unit` (lines 357-363): byte → [-1, 1].
`b <= 0` → -1.0, `b >= 255` → 1.0, else `(b - 128) / 127.0`. -/
def to_unit (b : ℕ) : ℚ :=
  if b = 0 then -1
  else if 255 ≤ b then 1
  else ((b : ℚ) - 128) / 127

/-- `PS4PS5ToDS4Bridge._ema_update` (lines 365-367): the stored EMA state is
overwritten with `target` and `target` is returned unchanged (the smoothing
is effectively disabled); only the returned value is ever used downstream. -/
def ema_update (target : ℚ) : ℚ := target

/-- The trigger noise floor applied in `_handle_report` (lines 510-513):
raw trigger bytes below 3 are snapped to 0. -/
def noiseFloor (b : ℕ) : ℕ := if b < 3 then 0 else b

/-- The XUSB button vocabulary used by `_decode_buttons`. -/
inductive XUSBButton where
  | dpadUp | dpadRight | dpadDown | dpadLeft
  | btnX | btnA | btnB | btnY
  | leftShoulder | rightShoulder
  | leftThumb | rightThumb
  | back | start
deriving DecidableEq, Repr

/-- `PS4PS5ToDS4Bridge._decode_hat` (lines 369-378).  `isDS` is the sticky
`_is_dualsense` flag. -/
def decode_hat (isDS : Bool) (data : List ℕ) (rid : ℕ) : ℕ :=
  if data.length < 6 then 8
  else
    let hat :=
      if isDS ∧ rid = 1 ∧ 8 < data.length then data.getD 8 0 &&& 0x0F
      else data.getD 5 0 &&& 0x0F
    if hat > 8 then 8 else hat

/-- `PS4PS5ToDS4Bridge._decode_buttons` (lines 380-451).  The `vg is None`
guard is dropped: the bridge constructor (line 193) raises unless `vg` is
available, so any live bridge has it. -/
def decode_buttons (isDS : Bool) (data : List ℕ) (rid : ℕ) : Finset XUSBButton :=
  if data.length < 7 then ∅
  else
    let hat := decode_hat isDS data rid
    let dpad : Finset XUSBButton :=
      if hat = 0 then {.dpadUp}
      else if hat = 2 then {.dpadRight}
      else if hat = 4 then {.dpadDown}
      else if hat = 6 then {.dpadLeft}
      else ∅
    let b5 := data.getD 5 0
    let b6 := data.getD 6 0
    let b8 := if 8 < data.length then data.getD 8 0 else 0
    let b9 := if 9 < data.length then data.getD 9 0 else 0
    if isDS ∧ rid = 1 ∧ 10 < data.length then
      let s := dpad
      let s := if b8 &&& 0x10 ≠ 0 then insert XUSBButton.btnX s else s
      let s := if b8 &&& 0x20 ≠ 0 then insert XUSBButton.btnA s else s
      let s := if b8 &&& 0x40 ≠ 0 then insert XUSBButton.btnB s else s
      let s := if b8 &&& 0x80 ≠ 0 then insert XUSBButton.btnY s else s
      let s := if b9 &&& 0x01 ≠ 0 then insert XUSBButton.leftShoulder s else s
      let s := if b9 &&& 0x02 ≠ 0 then insert XUSBButton.rightShoulder s else s
      let s := if b9 &&& 0x40 ≠ 0 then insert XUSBButton.leftThumb s else s
      let s := if b9 &&& 0x80 ≠ 0 then insert XUSBButton.rightThumb s else s
      let s := if b9 &&& 0x10 ≠ 0 then insert XUSBButton.back s else s
      let s := if b9 &&& 0x20 ≠ 0 then insert XUSBButton.start s else s
      s
    else
      let s := dpad
      let s := if b5 &&& 0x10 ≠ 0 then insert XUSBButton.btnX s else s
      let s := if b5 &&& 0x20 ≠ 0 then insert XUSBButton.btnA s else s
      let s := if b5 &&& 0x40 ≠ 0 then insert XUSBButton.btnB s else s
      let s := if b5 &&& 0x80 ≠ 0 then insert XUSBButton.btnY s else s
      let s := if b6 &&& 0x01 ≠ 0 then insert XUSBButton.leftShoulder s else s
      let s := if b6 &&& 0x02 ≠ 0 then insert XUSBButton.rightShoulder s else s
      let s := if b6 &&& 0x40 ≠ 0 then insert XUSBButton.leftThumb s else s
      let s := if b6 &&& 0x80 ≠ 0 then insert XUSBButton.rightThumb s else s
      let s := if b6 &&& 0x10 ≠ 0 then insert XUSBButton.back s else s
      let s := if b6 &&& 0x20 ≠ 0 then insert XUSBButton.start s else s
      s

/-- Byte offsets of the six analog values within a report. -/
structure Offsets where
  olx : ℕ
  oly : ℕ
  orx : ℕ
  ory : ℕ
  ol2 : ℕ
  or2 : ℕ
deriving DecidableEq, Repr

/-- The bounds guard of `_handle_report` (lines 503-506): any selected
offset beyond the payload makes the report undecodable. -/
def checkOffsets (data : List ℕ) (o : Offsets) : Option Offsets :=
  if o.olx < data.length ∧ o.oly < data.length ∧ o.orx < data.length ∧
     o.ory < data.length ∧ o.ol2 < data.length ∧ o.or2 < data.length
  then some o else none

/-- Offset selection of `_handle_report` (lines 478-506): report id 0x01
with ≥ 11 bytes uses the fixed full layout; ids 0x30/0x31/0x32 with ≥ 10
bytes use the simple layout whose trigger pair is chosen by the non-zero
heuristic `if cand_l2 or cand_r2 or not (cand2_l2 or cand2_r2)`; anything
else is not decodable. -/
def selectOffsets (data : List ℕ) : Option Offsets :=
  if data.length = 0 then none
  else
    let rid := data.getD 0 0
    if rid = 0x01 ∧ 11 ≤ data.length then
      checkOffsets data ⟨1, 2, 3, 4, 5, 6⟩
    else if (rid = 0x30 ∨ rid = 0x31 ∨ rid = 0x32) ∧ 10 ≤ data.length then
      let candL2 := data.getD 5 0
      let candR2 := data.getD 6 0
      let cand2L2 := if 8 < data.length then data.getD 8 0 else 0
      let cand2R2 := if 9 < data.length then data.getD 9 0 else 0
      if candL2 ≠ 0 ∨ candR2 ≠ 0 ∨ (cand2L2 = 0 ∧ cand2R2 = 0) then
        checkOffsets data ⟨1, 2, 3, 4, 5, 6⟩
      else
        checkOffsets data ⟨1, 2, 3, 4, 8, 9⟩
    else none

/-- The decoded analog snapshot of one report: normalized sticks (Y already
sign-inverted, lines 515-518) and raw trigger bytes after the noise floor
(lines 508-513). -/
structure Axes where
  alx : ℚ
  aly : ℚ
  arx : ℚ
  ary : ℚ
  l2raw : ℕ
  r2raw : ℕ
deriving DecidableEq, Repr

/-- The axis/trigger decode stage of `_handle_report` (lines 478-518). -/
def decodeAxes (data : List ℕ) : Option Axes :=
  match selectOffsets data with
  | none => none
  | some o => some
      { alx := ema_update (to_unit (data.getD o.olx 0))
        aly := ema_update (-(to_unit (data.getD o.oly 0)))
        arx := ema_update (to_unit (data.getD o.orx 0))
        ary := ema_update (-(to_unit (data.getD o.ory 0)))
        l2raw := noiseFloor (data.getD o.ol2 0)
        r2raw := noiseFloor (data.getD o.or2 0) }

/-! ## Fusion (`_handle_report`, lines 520-569) -/

/-- The injection values read once per tick from the `VirtualController`
channels (lines 535-543). -/
structure Inj where
  ilx : ℚ
  ily : ℚ
  irx : ℚ
  iry : ℚ
  ilt : ℚ
  irt : ℚ
deriving DecidableEq, Repr

/-- The bridge's three injection scale fields
(`_left_inj_scale`, `_right_inj_scale`, `_trig_inj_scale`). -/
structure InjScales where
  left : ℚ
  right : ℚ
  trig : ℚ
deriving DecidableEq, Repr

/-- `int(max(-32768, min(32767, v * 32767.0)))` (lines 520-523 and 546-547). -/
def stickInt (v : ℚ) : ℤ := truncInt (clampQ (-32768) 32767 (v * 32767))

/-- One stick pair of the additive-injection step (lines 545-555): executed
only when at least one injection component is non-zero (Python float
truthiness of `if inj_lx or inj_ly:`). -/
def fuseStickPair (bx bY : ℤ) (ix iy scale : ℚ) : ℤ × ℤ :=
  if ix ≠ 0 ∨ iy ≠ 0 then
    let injX := truncInt (clampQ (-32768) 32767 (ix * 32767 * scale))
    let injY := truncInt (clampQ (-32768) 32767 (iy * 32767 * scale))
    (clampZ (-32768) 32767 (bx + injX), clampZ (-32768) 32767 (bY + injY))
  else (bx, bY)

/-- One trigger of the injection step (lines 557-567): when the injected
value is positive, the scaled-and-clamped injection replaces the physical
value only if it is strictly larger. -/
def fuseTrig (phys : ℤ) (iv scale : ℚ) : ℤ :=
  if iv > 0 then
    let injT := truncInt (clampQ 0 255 (iv * 255 * scale))
    if injT > phys then injT else phys
  else phys

/-- The fused output of one report: the exact values handed to the
`vgamepad` backend calls. -/
structure Fused where
  flx : ℤ
  fly : ℤ
  frx : ℤ
  fry : ℤ
  fl2 : ℤ
  fr2 : ℤ
  buttons : Finset XUSBButton
deriving DecidableEq

/-- The pure decode-and-fuse core of `_handle_report` (lines 475-569):
decode the analog snapshot, convert to ints, add the scaled stick
injections, fuse the triggers by max, and decode the buttons.  The
`lshape`/`rshape` hook (lines 525-533) is absent on the
`VirtualController` used by the bridge (no such attribute is ever set), so
`shape_ints` is never invoked and is not modelled. -/
def fuse (isDS : Bool) (data : List ℕ) (inj : Inj) (sc : InjScales) : Option Fused :=
  match decodeAxes data with
  | none => none
  | some a =>
    let base_lx := stickInt a.alx
    let base_ly := stickInt a.aly
    let base_rx := stickInt a.arx
    let base_ry := stickInt a.ary
    let lpair := fuseStickPair base_lx base_ly inj.ilx inj.ily sc.left
    let rpair := fuseStickPair base_rx base_ry inj.irx inj.iry sc.right
    some
      { flx := lpair.1
        fly := lpair.2
        frx := rpair.1
        fry := rpair.2
        fl2 := fuseTrig (a.l2raw : ℤ) inj.ilt sc.trig
        fr2 := fuseTrig (a.r2raw : ℤ) inj.irt sc.trig
        buttons := decode_buttons isDS data (data.getD 0 0) }

/-! ## Bridge mutable state (`PS4PS5ToDS4Bridge`) -/

/-- The bridge's mutable fields relevant to the session lifecycle and the
per-tick "last applied" bookkeeping. `dev`/`vx360` record whether the
physical handle and the virtual backend currently exist. -/
structure BridgeState where
  dev : Bool
  vx360 : Bool
  btn_down : Finset XUSBButton
  last_lx : ℤ
  last_ly : ℤ
  last_rx : ℤ
  last_ry : ℤ
  last_l2 : ℤ
  last_r2 : ℤ
  l1_held : Bool
  l2_held : Bool
  left_inj_scale : ℚ
  right_inj_scale : ℚ
  trig_inj_scale : ℚ
deriving DecidableEq

/-- `PS4PS5ToDS4Bridge._drop_physical` (lines 312-318). -/
def drop_physical (s : BridgeState) : BridgeState := { s with dev := false }

/-- `PS4PS5ToDS4Bridge._drop_vx360` (lines 335-349): the backend is reset
(all buttons released, axes zeroed) and destroyed (`vx360 := false`), then
the recorded button set, last-applied axes/triggers and held flags are
cleared. -/
def drop_vx360 (s : BridgeState) : BridgeState :=
  { s with
    vx360 := false
    btn_down := ∅
    last_lx := 0, last_ly := 0, last_rx := 0, last_ry := 0
    last_l2 := 0, last_r2 := 0
    l1_held := false, l2_held := false }

/-- The read-failure branch of `PS4PS5ToDS4Bridge._loop` (lines 637-644):
`read()` raising drops the physical handle and the virtual backend,
returning the session to DISCONNECTED. -/
def loopReadFailure (s : BridgeState) : BridgeState :=
  drop_vx360 (drop_physical s)

/-- Success/failure of the per-tick backend calls: left stick, right
stick, left trigger, right trigger, and the button press/release calls
(`False` = the call raised). -/
structure CallOk where
  ls : Bool
  rs : Bool
  l2ok : Bool
  r2ok : Bool
  btns : Bool
deriving DecidableEq, Repr

/-- The per-tick backend application of `_handle_report` (lines 581-619)
plus `_apply_buttons` (lines 454-473).  Each axis/trigger block only runs
when the value differs from the recorded one, and its record is updated
only if the backend call succeeds (the update statements sit after the
call inside the `try`).  `_apply_buttons` swallows press/release failures
per button and assigns `_btn_down = set(new_buttons)` unconditionally
(line 472), so `ok.btns` does not influence the state. -/
def applyFusedCalls (s : BridgeState) (f : Fused) (ok : CallOk) : BridgeState :=
  let s1 := if (f.flx ≠ s.last_lx ∨ f.fly ≠ s.last_ly) ∧ ok.ls = true then
      { s with last_lx := f.flx, last_ly := f.fly } else s
  let s2 := if (f.frx ≠ s1.last_rx ∨ f.fry ≠ s1.last_ry) ∧ ok.rs = true then
      { s1 with last_rx := f.frx, last_ry := f.fry } else s1
  let s3 := if f.fl2 ≠ s2.last_l2 ∧ ok.l2ok = true then
      { s2 with last_l2 := f.fl2 } else s2
  let s4 := if f.fr2 ≠ s3.last_r2 ∧ ok.r2ok = true then
      { s3 with last_r2 := f.fr2 } else s3
  { s4 with btn_down := f.buttons }

/-- `PS4PS5ToDS4Bridge.set_injection_scales` (lines 226-239).  Each
argument is `none` for Python `None`, `some none` for a value whose
`float(...)` conversion raises (swallowed by the `except: pass`), and
`some (some v)` for a value converting to `v`. -/
def set_injection_scales (s : BridgeState)
    (left right trig : Option (Option ℚ)) : BridgeState :=
  let s1 := match left with
    | some (some v) => { s with left_inj_scale := v }
    | _ => s
  let s2 := match right with
    | some (some v) => { s1 with right_inj_scale := v }
    | _ => s1
  match trig with
  | some (some v) => { s2 with trig_inj_scale := v }
  | _ => s2

/-! ## `VirtualController` injection channels -/

/-- The normalized injection channels of `VirtualController`
(`_lx, _ly, _rx, _ry, _lt, _rt`, lines 57-62). -/
structure VCState where
  vlx : ℚ
  vly : ℚ
  vrx : ℚ
  vry : ℚ
  vlt : ℚ
  vrt : ℚ
deriving DecidableEq, Repr

/-- `max(-1.0, min(1.0, x))`, the unit clamp of the stick setters. -/
def clampUnit (x : ℚ) : ℚ := max (-1) (min 1 x)

/-- `VirtualController.set_left_stick` (lines 141-144). -/
def set_left_stick (x y : ℚ) (s : VCState) : VCState :=
  { s with vlx := clampUnit x, vly := clampUnit y }

/-- `VirtualController.set_right_stick` (lines 136-139). -/
def set_right_stick (x y : ℚ) (s : VCState) : VCState :=
  { s with vrx := clampUnit x, vry := clampUnit y }

/-! ## `PID` (lines 3-16) -/

/-- The `PID` object: gains plus running state. -/
structure PIDState where
  kp : ℚ
  ki : ℚ
  kd : ℚ
  integral : ℚ
  prev_error : ℚ
deriving DecidableEq, Repr

/-- `PID.update` (lines 11-16): returns the updated state and the output.
`integral += error * dt`; `derivative = (error - prev_error)/dt if dt > 0
else 0`; `output = kp*error + ki*integral + kd*derivative`;
`prev_error = error`. -/
def PID.update (p : PIDState) (error dt : ℚ) : PIDState × ℚ :=
  let integral := p.integral + error * dt
  let derivative := if dt > 0 then (error - p.prev_error) / dt else 0
  let output := p.kp * error + p.ki * integral + p.kd * derivative
  ({ p with integral := integral, prev_error := error }, output)

/-! ## `RightStickPIDInjector` -/

/-- `RightStickPIDInjector.set_error` (lines 802-806): each component is
saturated into [-1, 1] with the two-sided conditional, then stored. -/
def set_error (ex ey : ℚ) : ℚ × ℚ :=
  ((if ex < -1 then -1 else if ex > 1 then 1 else ex),
   (if ey < -1 then -1 else if ey > 1 then 1 else ey))

/-- The sequential output clamp of `RightStickPIDInjector._loop`
(lines 845-849): `if v < -m: v = -m` then `if v > m: v = m`. -/
def clampOut (m v : ℚ) : ℚ :=
  let v1 := if v < -m then -m else v
  if v1 > m then m else v1

/-- The loop-owned state of `RightStickPIDInjector`: the two PIDs plus the
shared `VirtualController` channels it writes. -/
structure RSState where
  pidX : PIDState
  pidY : PIDState
  vcs : VCState
deriving DecidableEq, Repr

/-- One tick of `RightStickPIDInjector._loop` (lines 828-856): when
`active` the stored error is fed to both PIDs
(`out = pid.update(e, dt) if active else 0.0` — the update call is
skipped entirely when inactive), the outputs are clamped to `±max_out`,
and the result is written to the right-stick channel. -/
def rsLoopTick (active : Bool) (err : ℚ × ℚ) (dt maxOut : ℚ) (s : RSState) : RSState :=
  let ox := if active then PID.update s.pidX err.1 dt else (s.pidX, 0)
  let oy := if active then PID.update s.pidY err.2 dt else (s.pidY, 0)
  { pidX := ox.1
    pidY := oy.1
    vcs := set_right_stick (clampOut maxOut ox.2) (clampOut maxOut oy.2) s.vcs }

/-! ## `LeftStickMicroRotator` -/

/-- One tick of `LeftStickMicroRotator._loop` (lines 717-762).  The
sinusoidal waveform values computed while active (lines 735-746) are
real-valued (`math.sin`/`math.cos`); they are taken here as the parameter
`osc`, after which the tick applies the sequential [-1, 1] clamps
(lines 748-751) and writes the left-stick channel; when the engagement
predicate is false, `(0.0, 0.0)` is written instead (lines 756-760). -/
def microLoopTick (active : Bool) (osc : ℚ × ℚ) (s : VCState) : VCState :=
  if active then
    let lx1 := if osc.1 > 1 then 1 else osc.1
    let lx2 := if lx1 < -1 then -1 else lx1
    let ly1 := if osc.2 > 1 then 1 else osc.2
    let ly2 := if ly1 < -1 then -1 else ly1
    set_left_stick lx2 ly2 s
  else
    set_left_stick 0 0 s

/-! ## Helper lemmas -/

theorem le_clampQ (lo hi x : ℚ) : lo ≤ clampQ lo hi x := le_max_left _ _

theorem clampQ_le (lo hi x : ℚ) (h : lo ≤ hi) : clampQ lo hi x ≤ hi :=
  max_le h (min_le_left _ _)

theorem truncInt_le (n : ℤ) (q : ℚ) (h : q ≤ (n : ℚ)) : truncInt q ≤ n := by
  unfold truncInt
  split
  · exact Int.ceil_le.mpr h
  · exact le_trans (Int.floor_mono h) (le_of_eq (Int.floor_intCast n))

theorem le_truncInt (n : ℤ) (q : ℚ) (h : (n : ℚ) ≤ q) : n ≤ truncInt q := by
  unfold truncInt
  split
  · exact le_trans (le_of_eq (Int.ceil_intCast n).symm) (Int.ceil_mono h)
  · exact Int.le_floor.mpr h

theorem clampZ_mem (lo hi x : ℤ) (h : lo ≤ hi) :
    lo ≤ clampZ lo hi x ∧ clampZ lo hi x ≤ hi :=
  ⟨le_max_left _ _, max_le h (min_le_left _ _)⟩

theorem noiseFloor_le (b : ℕ) : noiseFloor b ≤ b := by
  unfold noiseFloor
  split <;> omega

theorem getD_lt_256 (l : List ℕ) (i : ℕ) (h : ∀ b ∈ l, b < 256) : l.getD i 0 < 256 := by
  induction l generalizing i with
  | nil => simp [List.getD]
  | cons a t ih =>
    cases i with
    | zero => exact h a (List.mem_cons_self a t)
    | succ n => exact ih n (fun b hb => h b (List.mem_cons_of_mem a hb))

theorem stickInt_mem (v : ℚ) : -32768 ≤ stickInt v ∧ stickInt v ≤ 32767 := by
  unfold stickInt
  constructor
  · exact le_truncInt _ _ (by exact_mod_cast le_clampQ (-32768) 32767 (v * 32767))
  · exact truncInt_le _ _ (by exact_mod_cast clampQ_le (-32768) 32767 (v * 32767) (by norm_num))

theorem fuseStickPair_mem (bx bY : ℤ) (ix iy scq : ℚ)
    (hbx : -32768 ≤ bx ∧ bx ≤ 32767) (hbY : -32768 ≤ bY ∧ bY ≤ 32767) :
    (-32768 ≤ (fuseStickPair bx bY ix iy scq).1 ∧ (fuseStickPair bx bY ix iy scq).1 ≤ 32767) ∧
    (-32768 ≤ (fuseStickPair bx bY ix iy scq).2 ∧ (fuseStickPair bx bY ix iy scq).2 ≤ 32767) := by
  unfold fuseStickPair
  split
  · exact ⟨clampZ_mem _ _ _ (by norm_num), clampZ_mem _ _ _ (by norm_num)⟩
  · exact ⟨hbx, hbY⟩

theorem fuseTrig_mem (phys : ℤ) (iv scq : ℚ) (h0 : 0 ≤ phys) (h255 : phys ≤ 255) :
    0 ≤ fuseTrig phys iv scq ∧ fuseTrig phys iv scq ≤ 255 := by
  unfold fuseTrig
  have hinj : 0 ≤ truncInt (clampQ 0 255 (iv * 255 * scq)) ∧
      truncInt (clampQ 0 255 (iv * 255 * scq)) ≤ 255 := by
    constructor
    · exact le_truncInt _ _ (by exact_mod_cast le_clampQ 0 255 (iv * 255 * scq))
    · exact truncInt_le _ _ (by exact_mod_cast clampQ_le 0 255 (iv * 255 * scq) (by norm_num))
  split
  · dsimp only
    split
    · exact hinj
    · exact ⟨h0, h255⟩
  · exact ⟨h0, h255⟩

theorem rs_disengaged_pids (e : ℚ × ℚ) (dt maxOut : ℚ) (m : ℕ) (s : RSState) :
    ((rsLoopTick false e dt maxOut)^[m] s).pidX = s.pidX ∧
    ((rsLoopTick false e dt maxOut)^[m] s).pidY = s.pidY := by
  induction m with
  | zero => exact ⟨rfl, rfl⟩
  | succ n ih =>
    rw [Function.iterate_succ_apply']
    exact ⟨ih.1 ▸ rfl, ih.2 ▸ rfl⟩

/-! ## Claim theorems -/

/-- C9: for every pair of real inputs `(ex, ey)`, including values outside
[-1, 1], `RightStickPIDInjector.set_error` stores a pair lying componentwise
in [-1, 1]; an out-of-range component is saturated to the nearest bound
(characterized by `max (-1) (min 1 ·)`) and an in-range component is stored
unchanged. -/
theorem set_error_saturates (ex ey : ℚ) :
    set_error ex ey = (max (-1) (min 1 ex), max (-1) (min 1 ey)) ∧
    -1 ≤ (set_error ex ey).1 ∧ (set_error ex ey).1 ≤ 1 ∧
    -1 ≤ (set_error ex ey).2 ∧ (set_error ex ey).2 ≤ 1 := by
  have key : ∀ x : ℚ, (if x < -1 then (-1 : ℚ) else if x > 1 then 1 else x) =
      max (-1) (min 1 x) := by
    intro x
    rcases lt_or_le x (-1) with h | h
    · rw [if_pos h, min_eq_right (by linarith), max_eq_left (by linarith)]
    · rw [if_neg (not_lt.mpr h)]
      rcases lt_or_le 1 x with h2 | h2
      · rw [if_pos h2, min_eq_left h2.le, max_eq_right (by norm_num)]
      · rw [if_neg (not_lt.mpr h2), min_eq_right h2, max_eq_right h]
  have hx : (set_error ex ey).1 = max (-1) (min 1 ex) := by
    unfold set_error; exact key ex
  have hy : (set_error ex ey).2 = max (-1) (min 1 ey) := by
    unfold set_error; exact key ey
  refine ⟨Prod.ext hx hy, ?_, ?_, ?_, ?_⟩
  · rw [hx]; exact le_max_left _ _
  · rw [hx]; exact max_le (by norm_num) (min_le_left _ _)
  · rw [hy]; exact le_max_left _ _
  · rw [hy]; exact max_le (by norm_num) (min_le_left _ _)

/-- C10: `set_injection_scales` updates each of the three scale fields
exactly when its argument is present (`not None`) and converts to a float;
an absent or non-convertible argument leaves that scale unchanged, and all
other bridge state is untouched (the result is `s` with only the three
scale fields possibly replaced). -/
theorem set_injection_scales_frame (s : BridgeState) (l r t : Option (Option ℚ)) :
    set_injection_scales s l r t =
      { s with
        left_inj_scale := (l.bind id).getD s.left_inj_scale
        right_inj_scale := (r.bind id).getD s.right_inj_scale
        trig_inj_scale := (t.bind id).getD s.trig_inj_scale } ∧
    (set_injection_scales s l r t).btn_down = s.btn_down ∧
    (set_injection_scales s l r t).dev = s.dev ∧
    (set_injection_scales s l r t).vx360 = s.vx360 ∧
    (set_injection_scales s l r t).last_lx = s.last_lx ∧
    (set_injection_scales s l r t).last_l2 = s.last_l2 ∧
    (set_injection_scales s l r t).l1_held = s.l1_held := by
  rcases l with _ | _ | lv <;> rcases r with _ | _ | rv <;> rcases t with _ | _ | tv <;>
    exact ⟨rfl, rfl, rfl, rfl, rfl, rfl, rfl⟩

/-- C6: from any bridge state with at least one button recorded as held, a
physical read failure (drop the physical handle, then reset and destroy the
virtual backend) leaves the recorded button set empty, the recorded
last-applied axes and triggers at zero, and both handles gone. -/
theorem disconnect_clears_virtual_state (s : BridgeState) (h : s.btn_down ≠ ∅) :
    (loopReadFailure s).btn_down = ∅ ∧
    (loopReadFailure s).last_lx = 0 ∧ (loopReadFailure s).last_ly = 0 ∧
    (loopReadFailure s).last_rx = 0 ∧ (loopReadFailure s).last_ry = 0 ∧
    (loopReadFailure s).last_l2 = 0 ∧ (loopReadFailure s).last_r2 = 0 ∧
    (loopReadFailure s).vx360 = false ∧ (loopReadFailure s).dev = false :=
  ⟨rfl, rfl, rfl, rfl, rfl, rfl, rfl, rfl, rfl⟩

/-- Witness for C6 at a concrete state with button A held and non-zero
last-applied values. -/
theorem disconnect_clears_virtual_state_witness :
    (⟨true, true, {XUSBButton.btnA}, 5, 6, 7, 8, 9, 10, true, true, 1, 1/2, 1⟩ :
        BridgeState).btn_down ≠ ∅ ∧
    ((loopReadFailure ⟨true, true, {XUSBButton.btnA}, 5, 6, 7, 8, 9, 10, true, true, 1, 1/2, 1⟩).btn_down = ∅ ∧
     (loopReadFailure ⟨true, true, {XUSBButton.btnA}, 5, 6, 7, 8, 9, 10, true, true, 1, 1/2, 1⟩).last_lx = 0 ∧
     (loopReadFailure ⟨true, true, {XUSBButton.btnA}, 5, 6, 7, 8, 9, 10, true, true, 1, 1/2, 1⟩).last_ly = 0 ∧
     (loopReadFailure ⟨true, true, {XUSBButton.btnA}, 5, 6, 7, 8, 9, 10, true, true, 1, 1/2, 1⟩).last_rx = 0 ∧
     (loopReadFailure ⟨true, true, {XUSBButton.btnA}, 5, 6, 7, 8, 9, 10, true, true, 1, 1/2, 1⟩).last_ry = 0 ∧
     (loopReadFailure ⟨true, true, {XUSBButton.btnA}, 5, 6, 7, 8, 9, 10, true, true, 1, 1/2, 1⟩).last_l2 = 0 ∧
     (loopReadFailure ⟨true, true, {XUSBButton.btnA}, 5, 6, 7, 8, 9, 10, true, true, 1, 1/2, 1⟩).last_r2 = 0 ∧
     (loopReadFailure ⟨true, true, {XUSBButton.btnA}, 5, 6, 7, 8, 9, 10, true, true, 1, 1/2, 1⟩).vx360 = false ∧
     (loopReadFailure ⟨true, true, {XUSBButton.btnA}, 5, 6, 7, 8, 9, 10, true, true, 1, 1/2, 1⟩).dev = false) :=
  ⟨by decide, disconnect_clears_virtual_state _ (by decide)⟩

/-- C7 counterexample: with one button newly decoded as pressed and the
backend press call failing (`ok.btns = false`), `_apply_buttons` still
overwrites `_btn_down` with the new set (line 472 assigns unconditionally),
so the record is NOT left unchanged by the failed call. -/
theorem backend_failure_records_counterexample :
    (applyFusedCalls ⟨true, true, ∅, 0, 0, 0, 0, 0, 0, false, false, 1, 1/2, 1⟩
        ⟨0, 0, 0, 0, 0, 0, {XUSBButton.btnA}⟩ ⟨true, true, true, true, false⟩).btn_down ≠
    (⟨true, true, ∅, 0, 0, 0, 0, 0, 0, false, false, 1, 1/2, 1⟩ : BridgeState).btn_down := by
  decide

/-- C7 (amended): for every tick, every fused output and every combination
of per-call backend outcomes, each axis/trigger "last applied" record takes
the new value exactly when its own value differs and its own backend call
succeeds — so any individual failed axis or trigger call leaves its record
unchanged (independently of whether the other calls of the same tick
succeed), and the change is retried on the next tick whose value differs;
`_btn_down`, however, is unconditionally overwritten with the newly decoded
button set even when a press/release call fails. -/
theorem backend_failure_records (s : BridgeState) (f : Fused) (ok : CallOk) :
    (applyFusedCalls s f ok).last_lx =
      (if (f.flx ≠ s.last_lx ∨ f.fly ≠ s.last_ly) ∧ ok.ls = true then f.flx else s.last_lx) ∧
    (applyFusedCalls s f ok).last_ly =
      (if (f.flx ≠ s.last_lx ∨ f.fly ≠ s.last_ly) ∧ ok.ls = true then f.fly else s.last_ly) ∧
    (applyFusedCalls s f ok).last_rx =
      (if (f.frx ≠ s.last_rx ∨ f.fry ≠ s.last_ry) ∧ ok.rs = true then f.frx else s.last_rx) ∧
    (applyFusedCalls s f ok).last_ry =
      (if (f.frx ≠ s.last_rx ∨ f.fry ≠ s.last_ry) ∧ ok.rs = true then f.fry else s.last_ry) ∧
    (applyFusedCalls s f ok).last_l2 =
      (if f.fl2 ≠ s.last_l2 ∧ ok.l2ok = true then f.fl2 else s.last_l2) ∧
    (applyFusedCalls s f ok).last_r2 =
      (if f.fr2 ≠ s.last_r2 ∧ ok.r2ok = true then f.fr2 else s.last_r2) ∧
    (applyFusedCalls s f ok).btn_down = f.buttons := by
  unfold applyFusedCalls
  dsimp only
  split_ifs <;> simp_all

/-- Witness for C7 at a concrete mixed tick — the left-stick and
left-trigger calls fail while the right-stick and right-trigger calls
succeed, every value differing from its record: the failed calls' records
(1, 2 and 5) survive unchanged, the successful calls' records take the new
values (13, 14 and 16), and the button record is overwritten although the
press call failed. -/
theorem backend_failure_records_witness :
    ((applyFusedCalls ⟨true, true, ∅, 1, 2, 3, 4, 5, 6, false, false, 1, 1/2, 1⟩
        ⟨11, 12, 13, 14, 15, 16, {XUSBButton.btnA}⟩ ⟨false, true, false, true, false⟩).last_lx =
      (if ((11 : ℤ) ≠ 1 ∨ (12 : ℤ) ≠ 2) ∧ (false : Bool) = true then (11 : ℤ) else 1) ∧
     (applyFusedCalls ⟨true, true, ∅, 1, 2, 3, 4, 5, 6, false, false, 1, 1/2, 1⟩
        ⟨11, 12, 13, 14, 15, 16, {XUSBButton.btnA}⟩ ⟨false, true, false, true, false⟩).last_ly =
      (if ((11 : ℤ) ≠ 1 ∨ (12 : ℤ) ≠ 2) ∧ (false : Bool) = true then (12 : ℤ) else 2) ∧
     (applyFusedCalls ⟨true, true, ∅, 1, 2, 3, 4, 5, 6, false, false, 1, 1/2, 1⟩
        ⟨11, 12, 13, 14, 15, 16, {XUSBButton.btnA}⟩ ⟨false, true, false, true, false⟩).last_rx =
      (if ((13 : ℤ) ≠ 3 ∨ (14 : ℤ) ≠ 4) ∧ (true : Bool) = true then (13 : ℤ) else 3) ∧
     (applyFusedCalls ⟨true, true, ∅, 1, 2, 3, 4, 5, 6, false, false, 1, 1/2, 1⟩
        ⟨11, 12, 13, 14, 15, 16, {XUSBButton.btnA}⟩ ⟨false, true, false, true, false⟩).last_ry =
      (if ((13 : ℤ) ≠ 3 ∨ (14 : ℤ) ≠ 4) ∧ (true : Bool) = true then (14 : ℤ) else 4) ∧
     (applyFusedCalls ⟨true, true, ∅, 1, 2, 3, 4, 5, 6, false, false, 1, 1/2, 1⟩
        ⟨11, 12, 13, 14, 15, 16, {XUSBButton.btnA}⟩ ⟨false, true, false, true, false⟩).last_l2 =
      (if (15 : ℤ) ≠ 5 ∧ (false : Bool) = true then (15 : ℤ) else 5) ∧
     (applyFusedCalls ⟨true, true, ∅, 1, 2, 3, 4, 5, 6, false, false, 1, 1/2, 1⟩
        ⟨11, 12, 13, 14, 15, 16, {XUSBButton.btnA}⟩ ⟨false, true, false, true, false⟩).last_r2 =
      (if (16 : ℤ) ≠ 6 ∧ (true : Bool) = true then (16 : ℤ) else 6) ∧
     (applyFusedCalls ⟨true, true, ∅, 1, 2, 3, 4, 5, 6, false, false, 1, 1/2, 1⟩
        ⟨11, 12, 13, 14, 15, 16, {XUSBButton.btnA}⟩ ⟨false, true, false, true, false⟩).btn_down =
      ({XUSBButton.btnA} : Finset XUSBButton)) ∧
    ((applyFusedCalls ⟨true, true, ∅, 1, 2, 3, 4, 5, 6, false, false, 1, 1/2, 1⟩
        ⟨11, 12, 13, 14, 15, 16, {XUSBButton.btnA}⟩ ⟨false, true, false, true, false⟩).last_lx = 1 ∧
     (applyFusedCalls ⟨true, true, ∅, 1, 2, 3, 4, 5, 6, false, false, 1, 1/2, 1⟩
        ⟨11, 12, 13, 14, 15, 16, {XUSBButton.btnA}⟩ ⟨false, true, false, true, false⟩).last_ly = 2 ∧
     (applyFusedCalls ⟨true, true, ∅, 1, 2, 3, 4, 5, 6, false, false, 1, 1/2, 1⟩
        ⟨11, 12, 13, 14, 15, 16, {XUSBButton.btnA}⟩ ⟨false, true, false, true, false⟩).last_rx = 13 ∧
     (applyFusedCalls ⟨true, true, ∅, 1, 2, 3, 4, 5, 6, false, false, 1, 1/2, 1⟩
        ⟨11, 12, 13, 14, 15, 16, {XUSBButton.btnA}⟩ ⟨false, true, false, true, false⟩).last_ry = 14 ∧
     (applyFusedCalls ⟨true, true, ∅, 1, 2, 3, 4, 5, 6, false, false, 1, 1/2, 1⟩
        ⟨11, 12, 13, 14, 15, 16, {XUSBButton.btnA}⟩ ⟨false, true, false, true, false⟩).last_l2 = 5 ∧
     (applyFusedCalls ⟨true, true, ∅, 1, 2, 3, 4, 5, 6, false, false, 1, 1/2, 1⟩
        ⟨11, 12, 13, 14, 15, 16, {XUSBButton.btnA}⟩ ⟨false, true, false, true, false⟩).last_r2 = 16) :=
  ⟨backend_failure_records ⟨true, true, ∅, 1, 2, 3, 4, 5, 6, false, false, 1, 1/2, 1⟩
     ⟨11, 12, 13, 14, 15, 16, {XUSBButton.btnA}⟩ ⟨false, true, false, true, false⟩,
   by decide⟩

theorem fuseTrig_eq_max (phys : ℕ) (iv scq : ℚ) (hiv : 0 ≤ iv) :
    fuseTrig (phys : ℤ) iv scq =
      max (phys : ℤ) (truncInt (clampQ 0 255 (iv * 255 * scq))) := by
  unfold fuseTrig
  rcases lt_or_eq_of_le hiv with hpos | hzero
  · rw [if_pos hpos]
    dsimp only
    by_cases hgt : truncInt (clampQ 0 255 (iv * 255 * scq)) > (phys : ℤ)
    · rw [if_pos hgt, max_eq_right hgt.le]
    · rw [if_neg hgt, max_eq_left (not_lt.mp hgt)]
  · rw [if_neg (by rw [← hzero]; exact lt_irrefl 0)]
    have hz : clampQ 0 255 (iv * 255 * scq) = 0 := by
      rw [← hzero]
      simp [clampQ]
    rw [hz]
    have ht : truncInt 0 = 0 := by
      unfold truncInt
      norm_num
    rw [ht, max_eq_left (Int.natCast_nonneg phys)]

/-- C2: the fused trigger handed to the backend is the maximum of the
decoded physical trigger value and the scaled-and-clamped injected value —
never their sum — for every decodable report, every non-negative injected
trigger value and every trigger injection scale; in particular an injection
can only raise a trigger, never lower a stronger physical press. -/
theorem trigger_fusion_is_max (isDS : Bool) (data : List ℕ) (inj : Inj) (sc : InjScales)
    (a : Axes) (f : Fused) (ha : decodeAxes data = some a)
    (hf : fuse isDS data inj sc = some f)
    (hlt : 0 ≤ inj.ilt) (hrt : 0 ≤ inj.irt) :
    f.fl2 = max (a.l2raw : ℤ) (truncInt (clampQ 0 255 (inj.ilt * 255 * sc.trig))) ∧
    f.fr2 = max (a.r2raw : ℤ) (truncInt (clampQ 0 255 (inj.irt * 255 * sc.trig))) ∧
    (a.l2raw : ℤ) ≤ f.fl2 ∧ (a.r2raw : ℤ) ≤ f.fr2 := by
  unfold fuse at hf
  rw [ha] at hf
  obtain rfl := (Option.some.injEq _ _).mp hf
  refine ⟨fuseTrig_eq_max a.l2raw inj.ilt sc.trig hlt,
          fuseTrig_eq_max a.r2raw inj.irt sc.trig hrt, ?_, ?_⟩
  · rw [show (Fused.fl2 _) = fuseTrig (a.l2raw : ℤ) inj.ilt sc.trig from rfl,
        fuseTrig_eq_max a.l2raw inj.ilt sc.trig hlt]
    exact le_max_left _ _
  · rw [show (Fused.fr2 _) = fuseTrig (a.r2raw : ℤ) inj.irt sc.trig from rfl,
        fuseTrig_eq_max a.r2raw inj.irt sc.trig hrt]
    exact le_max_left _ _

/-- Witness for C2: physical left trigger 100/255 with an injected pull of
50/255 at scale 1 fuses to exactly 100 — not 150 — and the max equation of
the theorem holds at this input. -/
theorem trigger_fusion_is_max_witness :
    decodeAxes [1, 128, 128, 128, 128, 100, 0, 0, 0, 0, 0] =
      some ⟨0, 0, 0, 0, 100, 0⟩ ∧
    fuse false [1, 128, 128, 128, 128, 100, 0, 0, 0, 0, 0]
        ⟨0, 0, 0, 0, 50/255, 0⟩ ⟨1, 1, 1⟩ =
      some ⟨0, 0, 0, 0, 100, 0,
        insert XUSBButton.btnB (insert XUSBButton.btnA {XUSBButton.dpadDown})⟩ ∧
    (0 : ℚ) ≤ 50/255 ∧ (0 : ℚ) ≤ 0 ∧
    ((⟨0, 0, 0, 0, 100, 0,
        insert XUSBButton.btnB (insert XUSBButton.btnA {XUSBButton.dpadDown})⟩ : Fused).fl2 =
      max (((⟨0, 0, 0, 0, 100, 0⟩ : Axes).l2raw : ℤ))
        (truncInt (clampQ 0 255 ((⟨0, 0, 0, 0, 50/255, 0⟩ : Inj).ilt * 255 *
          (⟨1, 1, 1⟩ : InjScales).trig)))) ∧
    ((⟨0, 0, 0, 0, 100, 0,
        insert XUSBButton.btnB (insert XUSBButton.btnA {XUSBButton.dpadDown})⟩ : Fused).fl2 = 100) := by
  have ha : decodeAxes [1, 128, 128, 128, 128, 100, 0, 0, 0, 0, 0] =
      some ⟨0, 0, 0, 0, 100, 0⟩ := by
    norm_num [decodeAxes, selectOffsets, checkOffsets, ema_update, noiseFloor, to_unit]
  have hb : decode_buttons false [1, 128, 128, 128, 128, 100, 0, 0, 0, 0, 0] 1 =
      insert XUSBButton.btnB (insert XUSBButton.btnA {XUSBButton.dpadDown}) := by decide
  have hf : fuse false [1, 128, 128, 128, 128, 100, 0, 0, 0, 0, 0]
      ⟨0, 0, 0, 0, 50/255, 0⟩ ⟨1, 1, 1⟩ =
      some ⟨0, 0, 0, 0, 100, 0,
        insert XUSBButton.btnB (insert XUSBButton.btnA {XUSBButton.dpadDown})⟩ := by
    unfold fuse
    rw [ha]
    norm_num [fuseStickPair, fuseTrig, stickInt, truncInt, clampQ, hb]
  exact ⟨ha, hf, by norm_num, le_refl 0,
    (trigger_fusion_is_max false [1, 128, 128, 128, 128, 100, 0, 0, 0, 0, 0]
      ⟨0, 0, 0, 0, 50/255, 0⟩ ⟨1, 1, 1⟩ ⟨0, 0, 0, 0, 100, 0⟩
      ⟨0, 0, 0, 0, 100, 0, insert XUSBButton.btnB (insert XUSBButton.btnA {XUSBButton.dpadDown})⟩
      ha hf (by norm_num) le_rfl).1,
    rfl⟩

theorem decodeAxes_trig_lt (data : List ℕ) (a : Axes) (hbytes : ∀ b ∈ data, b < 256)
    (h : decodeAxes data = some a) : a.l2raw < 256 ∧ a.r2raw < 256 := by
  unfold decodeAxes at h
  cases h' : selectOffsets data with
  | none => rw [h'] at h; cases h
  | some o =>
    rw [h'] at h
    obtain rfl := (Option.some.injEq _ _).mp h
    exact ⟨lt_of_le_of_lt (noiseFloor_le _) (getD_lt_256 data o.ol2 hbytes),
           lt_of_le_of_lt (noiseFloor_le _) (getD_lt_256 data o.or2 hbytes)⟩

/-- C5: for every decodable raw report (a byte list) and every injection
state, with all three injection scales in [0, 1], the fused stick values
lie in [-32768, 32767] and the fused trigger values in [0, 255]. -/
theorem fusion_output_bounds (isDS : Bool) (data : List ℕ) (inj : Inj) (sc : InjScales)
    (f : Fused) (hbytes : ∀ b ∈ data, b < 256)
    (hsl0 : 0 ≤ sc.left) (hsl1 : sc.left ≤ 1)
    (hsr0 : 0 ≤ sc.right) (hsr1 : sc.right ≤ 1)
    (hst0 : 0 ≤ sc.trig) (hst1 : sc.trig ≤ 1)
    (hf : fuse isDS data inj sc = some f) :
    (-32768 ≤ f.flx ∧ f.flx ≤ 32767) ∧ (-32768 ≤ f.fly ∧ f.fly ≤ 32767) ∧
    (-32768 ≤ f.frx ∧ f.frx ≤ 32767) ∧ (-32768 ≤ f.fry ∧ f.fry ≤ 32767) ∧
    (0 ≤ f.fl2 ∧ f.fl2 ≤ 255) ∧ (0 ≤ f.fr2 ∧ f.fr2 ≤ 255) := by
  unfold fuse at hf
  cases ha : decodeAxes data with
  | none => rw [ha] at hf; cases hf
  | some a =>
    rw [ha] at hf
    obtain rfl := (Option.some.injEq _ _).mp hf
    have htrig := decodeAxes_trig_lt data a hbytes ha
    have hl := fuseStickPair_mem (stickInt a.alx) (stickInt a.aly) inj.ilx inj.ily sc.left
      (stickInt_mem a.alx) (stickInt_mem a.aly)
    have hr := fuseStickPair_mem (stickInt a.arx) (stickInt a.ary) inj.irx inj.iry sc.right
      (stickInt_mem a.arx) (stickInt_mem a.ary)
    exact ⟨hl.1, hl.2, hr.1, hr.2,
      fuseTrig_mem (a.l2raw : ℤ) inj.ilt sc.trig (Int.natCast_nonneg _)
        (by exact_mod_cast Nat.lt_succ_iff.mp htrig.1),
      fuseTrig_mem (a.r2raw : ℤ) inj.irt sc.trig (Int.natCast_nonneg _)
        (by exact_mod_cast Nat.lt_succ_iff.mp htrig.2)⟩

/-- Witness for C5 at a concrete report and an injection state with large
and negative injected values: all fused outputs stay in range. -/
theorem fusion_output_bounds_witness :
    (∀ b ∈ [1, 128, 128, 128, 128, 100, 0, 0, 0, 0, 0], b < 256) ∧
    (0 : ℚ) ≤ 1 ∧ (1 : ℚ) ≤ 1 ∧ (0 : ℚ) ≤ 1/2 ∧ (1/2 : ℚ) ≤ 1 ∧
    (0 : ℚ) ≤ 1 ∧ (1 : ℚ) ≤ 1 ∧
    fuse false [1, 128, 128, 128, 128, 100, 0, 0, 0, 0, 0]
        ⟨3, -7, 1/4, -1/4, 2, 50/255⟩ ⟨1, 1/2, 1⟩ =
      some ⟨32767, -32768, 4095, -4095, 255, 50,
        insert XUSBButton.btnB (insert XUSBButton.btnA {XUSBButton.dpadDown})⟩ ∧
    ((-32768 ≤ (32767 : ℤ) ∧ (32767 : ℤ) ≤ 32767) ∧
     (-32768 ≤ (-32768 : ℤ) ∧ (-32768 : ℤ) ≤ 32767) ∧
     (-32768 ≤ (4095 : ℤ) ∧ (4095 : ℤ) ≤ 32767) ∧
     (-32768 ≤ (-4095 : ℤ) ∧ (-4095 : ℤ) ≤ 32767) ∧
     (0 ≤ (255 : ℤ) ∧ (255 : ℤ) ≤ 255) ∧ (0 ≤ (50 : ℤ) ∧ (50 : ℤ) ≤ 255)) := by
  have ha : decodeAxes [1, 128, 128, 128, 128, 100, 0, 0, 0, 0, 0] =
      some ⟨0, 0, 0, 0, 100, 0⟩ := by
    norm_num [decodeAxes, selectOffsets, checkOffsets, ema_update, noiseFloor, to_unit]
  have hb : decode_buttons false [1, 128, 128, 128, 128, 100, 0, 0, 0, 0, 0] 1 =
      insert XUSBButton.btnB (insert XUSBButton.btnA {XUSBButton.dpadDown}) := by decide
  have hc1 : (⌈(-32768 : ℚ)⌉ = (-32768 : ℤ)) := by
    rw [show ((-32768 : ℚ)) = ((-32768 : ℤ) : ℚ) by norm_num, Int.ceil_intCast]
  have hc2 : (⌈-((32767 : ℚ) / 8)⌉ = (-4095 : ℤ)) := by
    rw [Int.ceil_eq_iff] <;> norm_num
  have hf : fuse false [1, 128, 128, 128, 128, 100, 0, 0, 0, 0, 0]
      ⟨3, -7, 1/4, -1/4, 2, 50/255⟩ ⟨1, 1/2, 1⟩ =
      some ⟨32767, -32768, 4095, -4095, 255, 50,
        insert XUSBButton.btnB (insert XUSBButton.btnA {XUSBButton.dpadDown})⟩ := by
    unfold fuse
    rw [ha]
    norm_num [fuseStickPair, fuseTrig, stickInt, truncInt, clampQ, clampZ, hb]
    norm_num [hc1, hc2]
  exact ⟨by decide, by norm_num, le_rfl, by norm_num, by norm_num, by norm_num, le_rfl,
    hf,
    fusion_output_bounds false [1, 128, 128, 128, 128, 100, 0, 0, 0, 0, 0]
      ⟨3, -7, 1/4, -1/4, 2, 50/255⟩ ⟨1, 1/2, 1⟩
      ⟨32767, -32768, 4095, -4095, 255, 50,
        insert XUSBButton.btnB (insert XUSBButton.btnA {XUSBButton.dpadDown})⟩
      (by decide) (by norm_num) le_rfl (by norm_num) (by norm_num) (by norm_num) le_rfl
      hf⟩

/-- C4: for every simple-layout report (id in {0x30, 0x31, 0x32}, length
≥ 10) the decoder reads the triggers from the secondary byte pair (8, 9)
exactly when the primary pair (5, 6) is all-zero and the secondary pair is
non-zero; when both pairs are zero, or the primary pair is non-zero, it
reads from the primary pair (5, 6). -/
theorem simple_layout_trigger_pair (data : List ℕ) (h10 : 10 ≤ data.length)
    (hrid : data.getD 0 0 = 0x30 ∨ data.getD 0 0 = 0x31 ∨ data.getD 0 0 = 0x32) :
    selectOffsets data = some ⟨1, 2, 3, 4,
      (if data.getD 5 0 = 0 ∧ data.getD 6 0 = 0 ∧
          ¬(data.getD 8 0 = 0 ∧ data.getD 9 0 = 0) then 8 else 5),
      (if data.getD 5 0 = 0 ∧ data.getD 6 0 = 0 ∧
          ¬(data.getD 8 0 = 0 ∧ data.getD 9 0 = 0) then 9 else 6)⟩ := by
  unfold selectOffsets checkOffsets
  dsimp only
  split_ifs <;> first | rfl | omega

/-- Witness for C4: a 10-byte 0x30 report with primary pair zero and
secondary pair (7, 7) selects offsets (8, 9). -/
theorem simple_layout_trigger_pair_witness :
    10 ≤ ([0x30, 128, 128, 128, 128, 0, 0, 0, 7, 7] : List ℕ).length ∧
    (([0x30, 128, 128, 128, 128, 0, 0, 0, 7, 7] : List ℕ).getD 0 0 = 0x30 ∨
     ([0x30, 128, 128, 128, 128, 0, 0, 0, 7, 7] : List ℕ).getD 0 0 = 0x31 ∨
     ([0x30, 128, 128, 128, 128, 0, 0, 0, 7, 7] : List ℕ).getD 0 0 = 0x32) ∧
    selectOffsets [0x30, 128, 128, 128, 128, 0, 0, 0, 7, 7] =
      some ⟨1, 2, 3, 4,
        (if ([0x30, 128, 128, 128, 128, 0, 0, 0, 7, 7] : List ℕ).getD 5 0 = 0 ∧
            ([0x30, 128, 128, 128, 128, 0, 0, 0, 7, 7] : List ℕ).getD 6 0 = 0 ∧
            ¬(([0x30, 128, 128, 128, 128, 0, 0, 0, 7, 7] : List ℕ).getD 8 0 = 0 ∧
              ([0x30, 128, 128, 128, 128, 0, 0, 0, 7, 7] : List ℕ).getD 9 0 = 0) then 8 else 5),
        (if ([0x30, 128, 128, 128, 128, 0, 0, 0, 7, 7] : List ℕ).getD 5 0 = 0 ∧
            ([0x30, 128, 128, 128, 128, 0, 0, 0, 7, 7] : List ℕ).getD 6 0 = 0 ∧
            ¬(([0x30, 128, 128, 128, 128, 0, 0, 0, 7, 7] : List ℕ).getD 8 0 = 0 ∧
              ([0x30, 128, 128, 128, 128, 0, 0, 0, 7, 7] : List ℕ).getD 9 0 = 0) then 9 else 6)⟩ ∧
    selectOffsets [0x30, 128, 128, 128, 128, 0, 0, 0, 7, 7] = some ⟨1, 2, 3, 4, 8, 9⟩ :=
  ⟨by decide, Or.inl (by decide),
   simple_layout_trigger_pair [0x30, 128, 128, 128, 128, 0, 0, 0, 7, 7]
     (by decide) (Or.inl (by decide)),
   by decide⟩

/-- C1 counterexample: for the report
`[0x01, 128, 0, 128, 128, 0, 0, 0, 0, 0, 0]` the hat nibble (byte 5 for
the DS4 family, byte 8 for the DualSense family) is 0, which decodes as
d-pad UP — not as neutral (8) — so for both device-family flag values the
hat is not neutral and the decoded button set is not empty. -/
theorem full_report_scenario_counterexample :
    ¬(decode_hat true [1, 128, 0, 128, 128, 0, 0, 0, 0, 0, 0] 1 = 8 ∧
      decode_buttons true [1, 128, 0, 128, 128, 0, 0, 0, 0, 0, 0] 1 = ∅) ∧
    ¬(decode_hat false [1, 128, 0, 128, 128, 0, 0, 0, 0, 0, 0] 1 = 8 ∧
      decode_buttons false [1, 128, 0, 128, 128, 0, 0, 0, 0, 0, 0] 1 = ∅) := by
  decide

/-- C1 (amended): decoding the 11-byte report
`[0x01, 128, 0, 128, 128, 0, 0, 0, 0, 0, 0]` (for either device-family
flag value) yields left stick x = 0, left stick y = +1 (byte 0 maps to -1
and is then Y-inverted), right stick x = 0, right stick y = 0, and both
triggers 0; the hat nibble decodes to 0 (d-pad up, not neutral) and the
decoded button set is exactly {DPAD_UP}. -/
theorem full_report_scenario :
    decodeAxes [1, 128, 0, 128, 128, 0, 0, 0, 0, 0, 0] =
      some ⟨0, 1, 0, 0, 0, 0⟩ ∧
    decode_hat true [1, 128, 0, 128, 128, 0, 0, 0, 0, 0, 0] 1 = 0 ∧
    decode_hat false [1, 128, 0, 128, 128, 0, 0, 0, 0, 0, 0] 1 = 0 ∧
    decode_buttons true [1, 128, 0, 128, 128, 0, 0, 0, 0, 0, 0] 1 =
      {XUSBButton.dpadUp} ∧
    decode_buttons false [1, 128, 0, 128, 128, 0, 0, 0, 0, 0, 0] 1 =
      {XUSBButton.dpadUp} := by
  refine ⟨?_, by decide, by decide, by decide, by decide⟩
  norm_num [decodeAxes, selectOffsets, checkOffsets, ema_update, noiseFloor, to_unit]

/-- C3 counterexample: on a disengaged tick the right-stick loop does NOT
apply a zero-error PID update — the update call is skipped outright — so
the PID state after a disengaged tick (here: `prev_error` stays 1) differs
from the state a zero-error update would produce (`prev_error` becomes 0). -/
theorem pid_zero_error_feed_counterexample :
    ((rsLoopTick false (0, 0) (1/500) 1
        ⟨⟨1/5, 0, 1/20, 0, 1⟩, ⟨1/5, 0, 1/20, 0, 1⟩, ⟨0, 0, 0, 0, 0, 0⟩⟩).pidX).prev_error ≠
    ((PID.update ⟨1/5, 0, 1/20, 0, 1⟩ 0 (1/500)).1).prev_error := by
  norm_num [rsLoopTick, PID.update]

/-- C3 (amended): on disengaged ticks the right-stick loop skips the PID
updates entirely (the controllers' state is frozen) and forces the written
output to zero; consequently — because the frozen state keeps
`prev_error` equal to the error and the integral gain is zero
(`RightStickPIDInjector`'s default `ki = 0`) — after any number of
disengaged ticks, re-engaging with the same error writes the same
right-stick values as the last engaged tick before disengagement. -/
theorem pid_skip_continuity (px py : PIDState) (e : ℚ × ℚ)
    (dt1 dt2 dt3 maxOut : ℚ) (m : ℕ) (vc : VCState)
    (hkx : px.ki = 0) (hky : py.ki = 0)
    (hpx : px.prev_error = e.1) (hpy : py.prev_error = e.2)
    (h1 : 0 < dt1) (h2 : 0 < dt2) :
    (rsLoopTick true e dt2 maxOut
        ((rsLoopTick false e dt3 maxOut)^[m]
          (rsLoopTick true e dt1 maxOut ⟨px, py, vc⟩))).vcs.vrx =
      (rsLoopTick true e dt1 maxOut ⟨px, py, vc⟩).vcs.vrx ∧
    (rsLoopTick true e dt2 maxOut
        ((rsLoopTick false e dt3 maxOut)^[m]
          (rsLoopTick true e dt1 maxOut ⟨px, py, vc⟩))).vcs.vry =
      (rsLoopTick true e dt1 maxOut ⟨px, py, vc⟩).vcs.vry := by
  have hpids := rs_disengaged_pids e dt3 maxOut m (rsLoopTick true e dt1 maxOut ⟨px, py, vc⟩)
  have houtx1 : (PID.update px e.1 dt1).2 = px.kp * e.1 := by
    unfold PID.update
    rw [if_pos h1, hkx, hpx]
    ring
  have houty1 : (PID.update py e.2 dt1).2 = py.kp * e.2 := by
    unfold PID.update
    rw [if_pos h1, hky, hpy]
    ring
  have hsx : (rsLoopTick true e dt1 maxOut ⟨px, py, vc⟩).pidX = (PID.update px e.1 dt1).1 := rfl
  have hsy : (rsLoopTick true e dt1 maxOut ⟨px, py, vc⟩).pidY = (PID.update py e.2 dt1).1 := rfl
  have houtx2 : (PID.update (PID.update px e.1 dt1).1 e.1 dt2).2 = px.kp * e.1 := by
    unfold PID.update
    rw [if_pos h2]
    dsimp only
    rw [hkx]
    ring
  have houty2 : (PID.update (PID.update py e.2 dt1).1 e.2 dt2).2 = py.kp * e.2 := by
    unfold PID.update
    rw [if_pos h2]
    dsimp only
    rw [hky]
    ring
  constructor
  · show clampUnit (clampOut maxOut
        (PID.update ((rsLoopTick false e dt3 maxOut)^[m]
          (rsLoopTick true e dt1 maxOut ⟨px, py, vc⟩)).pidX e.1 dt2).2) =
      clampUnit (clampOut maxOut (PID.update px e.1 dt1).2)
    rw [hpids.1, hsx, houtx2, houtx1]
  · show clampUnit (clampOut maxOut
        (PID.update ((rsLoopTick false e dt3 maxOut)^[m]
          (rsLoopTick true e dt1 maxOut ⟨px, py, vc⟩)).pidY e.2 dt2).2) =
      clampUnit (clampOut maxOut (PID.update py e.2 dt1).2)
    rw [hpids.2, hsy, houty2, houty1]

/-- Witness for C3 at concrete gains (`kp = 1/5`, `ki = 0`, `kd = 1/20`),
error (1/2, 1/2), tick lengths 1/500 and two disengaged ticks. -/
theorem pid_skip_continuity_witness :
    ((⟨1/5, 0, 1/20, 0, 1/2⟩ : PIDState).ki = 0) ∧
    ((⟨1/5, 0, 1/20, 0, 1/2⟩ : PIDState).prev_error = ((1/2 : ℚ), (1/2 : ℚ)).1) ∧
    (0 : ℚ) < 1/500 ∧
    ((rsLoopTick true ((1/2 : ℚ), (1/2 : ℚ)) (1/500) 1
        ((rsLoopTick false ((1/2 : ℚ), (1/2 : ℚ)) (1/500) 1)^[2]
          (rsLoopTick true ((1/2 : ℚ), (1/2 : ℚ)) (1/500) 1
            ⟨⟨1/5, 0, 1/20, 0, 1/2⟩, ⟨1/5, 0, 1/20, 0, 1/2⟩, ⟨0, 0, 0, 0, 0, 0⟩⟩))).vcs.vrx =
      (rsLoopTick true ((1/2 : ℚ), (1/2 : ℚ)) (1/500) 1
        ⟨⟨1/5, 0, 1/20, 0, 1/2⟩, ⟨1/5, 0, 1/20, 0, 1/2⟩, ⟨0, 0, 0, 0, 0, 0⟩⟩).vcs.vrx ∧
     (rsLoopTick true ((1/2 : ℚ), (1/2 : ℚ)) (1/500) 1
        ((rsLoopTick false ((1/2 : ℚ), (1/2 : ℚ)) (1/500) 1)^[2]
          (rsLoopTick true ((1/2 : ℚ), (1/2 : ℚ)) (1/500) 1
            ⟨⟨1/5, 0, 1/20, 0, 1/2⟩, ⟨1/5, 0, 1/20, 0, 1/2⟩, ⟨0, 0, 0, 0, 0, 0⟩⟩))).vcs.vry =
      (rsLoopTick true ((1/2 : ℚ), (1/2 : ℚ)) (1/500) 1
        ⟨⟨1/5, 0, 1/20, 0, 1/2⟩, ⟨1/5, 0, 1/20, 0, 1/2⟩, ⟨0, 0, 0, 0, 0, 0⟩⟩).vcs.vry) :=
  ⟨rfl, rfl, by norm_num,
   pid_skip_continuity ⟨1/5, 0, 1/20, 0, 1/2⟩ ⟨1/5, 0, 1/20, 0, 1/2⟩
     ((1/2 : ℚ), (1/2 : ℚ)) (1/500) (1/500) (1/500) 1 2 ⟨0, 0, 0, 0, 0, 0⟩
     rfl rfl rfl rfl (by norm_num) (by norm_num)⟩

/-- C8: on a tick of the left-stick micro-motion loop with the engagement
predicate false, followed by a tick of the right-stick controller loop with
the engagement predicate false (with any non-negative output bound), both
injection channels read exactly (0, 0) — the loops actively write zero, so
no residual offset survives a single disengaged tick of each loop,
whatever the channels held before. -/
theorem disengaged_write_zero (vc : VCState) (osc : ℚ × ℚ) (px py : PIDState)
    (err : ℚ × ℚ) (dt maxOut : ℚ) (hm : 0 ≤ maxOut) :
    (rsLoopTick false err dt maxOut ⟨px, py, microLoopTick false osc vc⟩).vcs.vlx = 0 ∧
    (rsLoopTick false err dt maxOut ⟨px, py, microLoopTick false osc vc⟩).vcs.vly = 0 ∧
    (rsLoopTick false err dt maxOut ⟨px, py, microLoopTick false osc vc⟩).vcs.vrx = 0 ∧
    (rsLoopTick false err dt maxOut ⟨px, py, microLoopTick false osc vc⟩).vcs.vry = 0 := by
  have hco : clampOut maxOut 0 = 0 := by
    unfold clampOut
    rw [if_neg (by linarith : ¬ ((0 : ℚ) < -maxOut))]
    rw [if_neg (by linarith : ¬ (maxOut < (0 : ℚ)))]
  have hcu : clampUnit 0 = 0 := by norm_num [clampUnit]
  refine ⟨?_, ?_, ?_, ?_⟩
  · show clampUnit 0 = 0
    exact hcu
  · show clampUnit 0 = 0
    exact hcu
  · show clampUnit (clampOut maxOut 0) = 0
    rw [hco]; exact hcu
  · show clampUnit (clampOut maxOut 0) = 0
    rw [hco]; exact hcu

/-- Witness for C8 at a channel state holding residual non-zero offsets,
an active waveform value, and output bound 1: after one disengaged tick of
each loop all four stick channels read zero. -/
theorem disengaged_write_zero_witness :
    (0 : ℚ) ≤ 1 ∧
    ((rsLoopTick false ((1 : ℚ), (1 : ℚ)) (1/500) 1
        ⟨⟨1/5, 0, 1/20, 3, 1⟩, ⟨1/5, 0, 1/20, 3, 1⟩,
          microLoopTick false ((2 : ℚ), (-2 : ℚ)) ⟨1/2, -1/3, 1/4, 1, 0, 0⟩⟩).vcs.vlx = 0 ∧
     (rsLoopTick false ((1 : ℚ), (1 : ℚ)) (1/500) 1
        ⟨⟨1/5, 0, 1/20, 3, 1⟩, ⟨1/5, 0, 1/20, 3, 1⟩,
          microLoopTick false ((2 : ℚ), (-2 : ℚ)) ⟨1/2, -1/3, 1/4, 1, 0, 0⟩⟩).vcs.vly = 0 ∧
     (rsLoopTick false ((1 : ℚ), (1 : ℚ)) (1/500) 1
        ⟨⟨1/5, 0, 1/20, 3, 1⟩, ⟨1/5, 0, 1/20, 3, 1⟩,
          microLoopTick false ((2 : ℚ), (-2 : ℚ)) ⟨1/2, -1/3, 1/4, 1, 0, 0⟩⟩).vcs.vrx = 0 ∧
     (rsLoopTick false ((1 : ℚ), (1 : ℚ)) (1/500) 1
        ⟨⟨1/5, 0, 1/20, 3, 1⟩, ⟨1/5, 0, 1/20, 3, 1⟩,
          microLoopTick false ((2 : ℚ), (-2 : ℚ)) ⟨1/2, -1/3, 1/4, 1, 0, 0⟩⟩).vcs.vry = 0) :=
  ⟨by norm_num,
   disengaged_write_zero ⟨1/2, -1/3, 1/4, 1, 0, 0⟩ ((2 : ℚ), (-2 : ℚ))
     ⟨1/5, 0, 1/20, 3, 1⟩ ⟨1/5, 0, 1/20, 3, 1⟩ ((1 : ℚ), (1 : ℚ)) (1/500) 1 (by norm_num)⟩

end AZUL
